import Mathlib

/-!
Verification of the RFP bid-preparation workflow (agentic-rfp-demo).

The definitions below are a shallow embedding of the Python source under
`backend/`: money, sizes and scores are modelled as exact rationals,
fallible lookups return `Option`/`Except`, and the per-stage loops become
structural recursion over lists.  Each claim about the specification is
settled by a theorem about these definitions.
-/

namespace RFP

/-- Two-decimal rounding as used by the Python source (`round(x, 2)`).
Half-way cases do not occur in any property considered here, so the
floor-based half-up rounding is an adequate embedding. -/
def round2 (x : ℚ) : ℚ := (⌊x * 100 + 1 / 2⌋ : ℚ) / 100

theorem round2_intCast (n : ℤ) : round2 (n : ℚ) = (n : ℚ) := by
  unfold round2
  have h : ((n : ℚ) * 100 + 1 / 2) = ((n * 100 : ℤ) : ℚ) + (1 / 2 : ℚ) := by
    push_cast; ring
  have h2 : ⌊(1 / 2 : ℚ)⌋ = 0 := by norm_num [Int.floor_eq_zero_iff]
  rw [h, Int.floor_int_add, h2]
  push_cast
  field_simp

theorem round2_mono {x y : ℚ} (h : x ≤ y) : round2 x ≤ round2 y := by
  unfold round2
  have : (⌊x * 100 + 1 / 2⌋ : ℤ) ≤ ⌊y * 100 + 1 / 2⌋ :=
    Int.floor_le_floor (by linarith)
  have h2 : ((⌊x * 100 + 1 / 2⌋ : ℤ) : ℚ) ≤ ((⌊y * 100 + 1 / 2⌋ : ℤ) : ℚ) := by
    exact_mod_cast this
  linarith

/-! ### Data model (backend/state.py, backend/data/models.py) -/

/-- One RFP line requirement (`ProductSpecification` in `backend/state.py`). -/
structure ProductSpecification where
  line : ℕ
  quantity : ℕ
  req_material : String
  req_insulation : String
  req_cores : ℤ
  req_size_mm2 : ℚ
  req_voltage_kv : ℚ
deriving DecidableEq

/-- One OEM catalog entry (the `sku_data` dictionaries of
`backend/data/models.py`). -/
structure SkuData where
  sku : String
  Material : String
  Insulation : String
  Cores : ℤ
  Size_mm2 : ℚ
  Base_Price : ℚ
  Metal_Weight_kg_km : ℚ
deriving DecidableEq

/-- Matched SKU for one line (`SelectedSKU` in `backend/state.py`,
restricted to the fields the control flow reads). -/
structure SelectedSKU where
  line : ℕ
  sku_id : String
  smm_score : ℚ
  retry_count : ℕ
deriving DecidableEq

/-! ### Configuration constants (backend/config.py, `Settings`) -/

def SMM_COMPLIANCE_THRESHOLD : ℚ := 80
def TECHNICAL_MAX_RETRIES : ℕ := 3
def SIZE_TOLERANCE_RELAXATION : ℚ := 10
def RFP_QUALIFICATION_WINDOW_DAYS : ℤ := 90
def TARGET_MARGIN : ℚ := 115 / 100
def USD_TO_INR_RATE : ℚ := 83

/-- Default LME commodity rates (USD per metric ton), `settings.LME_RATES`. -/
def LME_RATES : List (String × ℚ) := [("Copper", 9200), ("Aluminium", 2400)]

/-! ### SpecMatcher (backend/agents/technical_agent.py, `calculate_smm_weighted`) -/

def weightMaterial : ℚ := 30 / 100
def weightCores : ℚ := 25 / 100
def weightSize : ℚ := 25 / 100
def weightInsulation : ℚ := 20 / 100

/-- Size match from `calculate_smm_weighted`:
`sku_size >= (req_size_mm2 - size_tolerance)`. -/
def sizeMatch (skuSize reqSize tol : ℚ) : Bool := reqSize - tol ≤ skuSize

/-- Weighted Spec Match Metric, `calculate_smm_weighted` of
`backend/agents/technical_agent.py`: each field contributes
`match * weight * 100`, the total is rounded to two decimals. -/
def calculate_smm_weighted (spec : ProductSpecification) (skuData : SkuData)
    (sizeTolerance : ℚ) : ℚ :=
  let materialScore := (if skuData.Material = spec.req_material then (1 : ℚ) else 0)
      * weightMaterial * 100
  let coresScore := (if skuData.Cores = spec.req_cores then (1 : ℚ) else 0)
      * weightCores * 100
  let sizeScore := (if sizeMatch skuData.Size_mm2 spec.req_size_mm2 sizeTolerance
      then (1 : ℚ) else 0) * weightSize * 100
  let insulationScore := (if skuData.Insulation = spec.req_insulation then (1 : ℚ) else 0)
      * weightInsulation * 100
  round2 (materialScore + coresScore + sizeScore + insulationScore)

/-- SMM as worded by the spec (§4.4/§8): the sum over the four weighted
fields of `weight × 100` when the field matches and `0` otherwise,
rounded to two decimals.  Kept separate from `calculate_smm_weighted`
so the two can be compared. -/
def smmSpecFormula (spec : ProductSpecification) (skuData : SkuData) (tol : ℚ) : ℚ :=
  round2 (([(decide (skuData.Material = spec.req_material), weightMaterial),
            (decide (skuData.Cores = spec.req_cores), weightCores),
            (sizeMatch skuData.Size_mm2 spec.req_size_mm2 tol, weightSize),
            (decide (skuData.Insulation = spec.req_insulation), weightInsulation)]
    : List (Bool × ℚ)).foldr
      (fun fw acc => (if fw.1 then fw.2 * 100 else 0) + acc) 0)

theorem smm_eq_spec_formula (spec : ProductSpecification) (skuData : SkuData)
    (tol : ℚ) :
    calculate_smm_weighted spec skuData tol = smmSpecFormula spec skuData tol := by
  by_cases h1 : skuData.Material = spec.req_material <;>
    by_cases h2 : skuData.Cores = spec.req_cores <;>
      by_cases h3 : sizeMatch skuData.Size_mm2 spec.req_size_mm2 tol = true <;>
        by_cases h4 : skuData.Insulation = spec.req_insulation <;>
          simp [calculate_smm_weighted, smmSpecFormula, h1, h2, h3, h4,
            Bool.not_eq_true] at * <;>
          norm_num [round2, weightMaterial, weightCores, weightSize, weightInsulation]

/-- C4: the SMM lies in [0, 100], equals the spec's per-field weighted sum
(weights 0.30/0.25/0.25/0.20 summing to 1) rounded to two decimals, a match
on all four fields yields 100.00, and a mismatch on exactly the size field
yields 75.00. -/
theorem C4_smm_range_and_scenarios (spec : ProductSpecification)
    (skuData : SkuData) (tol : ℚ) :
    0 ≤ calculate_smm_weighted spec skuData tol ∧
    calculate_smm_weighted spec skuData tol ≤ 100 ∧
    calculate_smm_weighted spec skuData tol = smmSpecFormula spec skuData tol ∧
    (skuData.Material = spec.req_material ∧ skuData.Cores = spec.req_cores ∧
      sizeMatch skuData.Size_mm2 spec.req_size_mm2 tol = true ∧
      skuData.Insulation = spec.req_insulation →
      calculate_smm_weighted spec skuData tol = 100) ∧
    (skuData.Material = spec.req_material ∧ skuData.Cores = spec.req_cores ∧
      sizeMatch skuData.Size_mm2 spec.req_size_mm2 tol = false ∧
      skuData.Insulation = spec.req_insulation →
      calculate_smm_weighted spec skuData tol = 75) := by
  refine ⟨?_, ?_, smm_eq_spec_formula spec skuData tol, ?_, ?_⟩ <;>
    (by_cases h1 : skuData.Material = spec.req_material <;>
      by_cases h2 : skuData.Cores = spec.req_cores <;>
        by_cases h3 : sizeMatch skuData.Size_mm2 spec.req_size_mm2 tol = true <;>
          by_cases h4 : skuData.Insulation = spec.req_insulation <;>
            simp [calculate_smm_weighted, h1, h2, h3, h4, Bool.not_eq_true] <;>
            norm_num [round2, weightMaterial, weightCores, weightSize, weightInsulation])

def c4spec : ProductSpecification :=
  { line := 1, quantity := 5000, req_material := "Copper", req_insulation := "XLPE",
    req_cores := 4, req_size_mm2 := 95, req_voltage_kv := 11 / 10 }

def c4skuPerfect : SkuData :=
  { sku := "OEM-XLPE-4C-95", Material := "Copper", Insulation := "XLPE",
    Cores := 4, Size_mm2 := 95, Base_Price := 1000, Metal_Weight_kg_km := 380 }

def c4skuSmall : SkuData :=
  { sku := "OEM-XLPE-4C-70", Material := "Copper", Insulation := "XLPE",
    Cores := 4, Size_mm2 := 70, Base_Price := 800, Metal_Weight_kg_km := 300 }

/-- C4 witness: the all-match and size-only-mismatch scenarios evaluated at
concrete catalog entries. -/
theorem C4_smm_range_and_scenarios_witness :
    calculate_smm_weighted c4spec c4skuPerfect 0 = 100 ∧
    calculate_smm_weighted c4spec c4skuSmall 0 = 75 := by
  constructor
  · exact (C4_smm_range_and_scenarios c4spec c4skuPerfect 0).2.2.2.1
      ⟨rfl, rfl, by norm_num [sizeMatch, c4spec, c4skuPerfect], rfl⟩
  · exact (C4_smm_range_and_scenarios c4spec c4skuSmall 0).2.2.2.2
      ⟨rfl, rfl, by norm_num [sizeMatch, c4spec, c4skuSmall], rfl⟩

/-- C6: the size-match predicate is monotone in the tolerance, and so is the
resulting SMM. -/
theorem C6_tolerance_monotone (spec : ProductSpecification) (skuData : SkuData)
    (t1 t2 : ℚ) (h : t1 ≤ t2) :
    (sizeMatch skuData.Size_mm2 spec.req_size_mm2 t1 = true →
      sizeMatch skuData.Size_mm2 spec.req_size_mm2 t2 = true) ∧
    calculate_smm_weighted spec skuData t1 ≤ calculate_smm_weighted spec skuData t2 := by
  have hmono : sizeMatch skuData.Size_mm2 spec.req_size_mm2 t1 = true →
      sizeMatch skuData.Size_mm2 spec.req_size_mm2 t2 = true := by
    simp only [sizeMatch, decide_eq_true_eq]
    intro hle
    linarith
  refine ⟨hmono, ?_⟩
  have hsz : (if sizeMatch skuData.Size_mm2 spec.req_size_mm2 t1 then (1 : ℚ) else 0) ≤
      (if sizeMatch skuData.Size_mm2 spec.req_size_mm2 t2 then (1 : ℚ) else 0) := by
    cases hb1 : sizeMatch skuData.Size_mm2 spec.req_size_mm2 t1 <;>
      cases hb2 : sizeMatch skuData.Size_mm2 spec.req_size_mm2 t2 <;>
        simp_all
  unfold calculate_smm_weighted
  apply round2_mono
  have hw : (0 : ℚ) ≤ weightSize * 100 := by norm_num [weightSize]
  nlinarith [hsz, hw]

def c6spec : ProductSpecification :=
  { line := 1, quantity := 100, req_material := "Copper", req_insulation := "XLPE",
    req_cores := 4, req_size_mm2 := 95, req_voltage_kv := 11 / 10 }

def c6sku : SkuData :=
  { sku := "OEM-XLPE-4C-90", Material := "Copper", Insulation := "XLPE",
    Cores := 4, Size_mm2 := 90, Base_Price := 900, Metal_Weight_kg_km := 350 }

/-- C6 witness: monotonicity instantiated at tolerances 0 and 10. -/
theorem C6_tolerance_monotone_witness :
    (0 : ℚ) ≤ 10 ∧
    ((sizeMatch c6sku.Size_mm2 c6spec.req_size_mm2 0 = true →
      sizeMatch c6sku.Size_mm2 c6spec.req_size_mm2 10 = true) ∧
    calculate_smm_weighted c6spec c6sku 0 ≤ calculate_smm_weighted c6spec c6sku 10) :=
  ⟨by norm_num, C6_tolerance_monotone c6spec c6sku 0 10 (by norm_num)⟩

/-! ### TechnicalMatchingStage (backend/agents/technical_agent.py,
`technical_agent_node`) -/

/-- The candidate-evaluation loop of `technical_agent_node`: the running
best starts at `best_match = None` with `best_smm = 0`, and a candidate
replaces it only when its SMM score strictly exceeds the running best
(`if smm_score > best_smm`). -/
def selectLoop (spec : ProductSpecification) (tol : ℚ) :
    Option (SkuData × ℚ) → ℚ → List SkuData → Option (SkuData × ℚ)
  | best, _, [] => best
  | best, bestSmm, c :: cs =>
    if bestSmm < calculate_smm_weighted spec c tol then
      selectLoop spec tol (some (c, calculate_smm_weighted spec c tol))
        (calculate_smm_weighted spec c tol) cs
    else selectLoop spec tol best bestSmm cs

/-- Best-match selection over the retrieved candidate list for one line. -/
def selectBestMatch (spec : ProductSpecification) (tol : ℚ)
    (cands : List SkuData) : Option (SkuData × ℚ) :=
  selectLoop spec tol none 0 cands

theorem selectLoop_of_le (spec : ProductSpecification) (tol : ℚ) :
    ∀ (cs : List SkuData) (best : Option (SkuData × ℚ)) (bestSmm : ℚ),
      (∀ c ∈ cs, calculate_smm_weighted spec c tol ≤ bestSmm) →
      selectLoop spec tol best bestSmm cs = best := by
  intro cs
  induction cs with
  | nil => intro best bestSmm _; rfl
  | cons a rest ih =>
    intro best bestSmm hle
    have ha : ¬ bestSmm < calculate_smm_weighted spec a tol :=
      not_lt.mpr (hle a (List.mem_cons_self a rest))
    simp only [selectLoop, if_neg ha]
    exact ih best bestSmm (fun c hc => hle c (List.mem_cons_of_mem a hc))

theorem selectLoop_first_max (spec : ProductSpecification) (tol : ℚ) :
    ∀ (cs : List SkuData) (best : Option (SkuData × ℚ)) (bestSmm : ℚ),
      (∃ c ∈ cs, bestSmm < calculate_smm_weighted spec c tol) →
      ∃ pre b post, cs = pre ++ b :: post ∧
        selectLoop spec tol best bestSmm cs =
          some (b, calculate_smm_weighted spec b tol) ∧
        bestSmm < calculate_smm_weighted spec b tol ∧
        (∀ d ∈ pre,
          calculate_smm_weighted spec d tol < calculate_smm_weighted spec b tol) ∧
        (∀ d ∈ post,
          calculate_smm_weighted spec d tol ≤ calculate_smm_weighted spec b tol) := by
  intro cs
  induction cs with
  | nil =>
    rintro best bestSmm ⟨c, hc, _⟩
    exact absurd hc (List.not_mem_nil c)
  | cons a rest ih =>
    intro best bestSmm hex
    by_cases ha : bestSmm < calculate_smm_weighted spec a tol
    · by_cases hr : ∃ c ∈ rest,
          calculate_smm_weighted spec a tol < calculate_smm_weighted spec c tol
      · obtain ⟨pre, b, post, heq, hsel, hlt, hpre, hpost⟩ :=
          ih (some (a, calculate_smm_weighted spec a tol))
            (calculate_smm_weighted spec a tol) hr
        refine ⟨a :: pre, b, post, by rw [heq]; rfl, ?_, lt_trans ha hlt, ?_, hpost⟩
        · simp only [selectLoop, if_pos ha]
          exact hsel
        · intro d hd
          rcases List.mem_cons.mp hd with hd | hd
          · subst hd; exact hlt
          · exact hpre d hd
      · push_neg at hr
        refine ⟨[], a, rest, rfl, ?_, ha, by simp, hr⟩
        simp only [selectLoop, if_pos ha]
        exact selectLoop_of_le spec tol rest _ _ hr
    · have hr : ∃ c ∈ rest, bestSmm < calculate_smm_weighted spec c tol := by
        obtain ⟨c, hc, hclt⟩ := hex
        rcases List.mem_cons.mp hc with hd | hd
        · subst hd; exact absurd hclt ha
        · exact ⟨c, hd, hclt⟩
      obtain ⟨pre, b, post, heq, hsel, hlt, hpre, hpost⟩ := ih best bestSmm hr
      refine ⟨a :: pre, b, post, by rw [heq]; rfl, ?_, hlt, ?_, hpost⟩
      · simp only [selectLoop, if_neg ha]
        exact hsel
      · intro d hd
        rcases List.mem_cons.mp hd with hd | hd
        · subst hd; exact lt_of_le_of_lt (not_lt.mp ha) hlt
        · exact hpre d hd

/-- Per-line processing of `technical_agent_node`: empty retrieval is the
"Vector DB search failed" error, a selected best match becomes a
`SelectedSKU`, and no best match is the non-fatal "No matching SKU found"
error for the line. -/
def processLine (tol : ℚ) (retryCount : ℕ) (spec : ProductSpecification)
    (cands : List SkuData) : Except String SelectedSKU :=
  if cands.isEmpty then
    Except.error ("Vector DB search failed for line " ++ toString spec.line)
  else
    match selectBestMatch spec tol cands with
    | some best =>
      Except.ok { line := spec.line, sku_id := best.1.sku, smm_score := best.2,
                  retry_count := retryCount }
    | none =>
      Except.error ("No matching SKU found for line " ++ toString spec.line)

/-- One full attempt of the technical matching stage: every line of the RFP
is processed (`for spec in product_specs`), successes collect into
`selected_skus` and failures into the non-fatal error list. -/
def technicalAttempt (tol : ℚ) (retryCount : ℕ) :
    List (ProductSpecification × List SkuData) → List SelectedSKU × List String
  | [] => ([], [])
  | l :: ls =>
    let rest := technicalAttempt tol retryCount ls
    match processLine tol retryCount l.1 l.2 with
    | Except.ok s => (s :: rest.1, rest.2)
    | Except.error e => (rest.1, e :: rest.2)

theorem technicalAttempt_length (tol : ℚ) (retryCount : ℕ) :
    ∀ lines : List (ProductSpecification × List SkuData),
      (technicalAttempt tol retryCount lines).1.length +
        (technicalAttempt tol retryCount lines).2.length = lines.length := by
  intro lines
  induction lines with
  | nil => rfl
  | cons l ls ih =>
    simp only [technicalAttempt]
    cases processLine tol retryCount l.1 l.2 <;> simp <;> omega

/-- Tolerance schedule of `technical_agent_node`: attempt 0 matches
exactly, attempt 1 relaxes by one step, and every later attempt uses twice
the step (`retry_count >= 2` branch). -/
def toleranceForAttempt (retryCount : ℕ) : ℚ :=
  if retryCount = 0 then 0
  else if retryCount = 1 then SIZE_TOLERANCE_RELAXATION
  else SIZE_TOLERANCE_RELAXATION * 2

theorem aluminium_ne_copper : ("Aluminium" : String) ≠ "Copper" := by decide

theorem pvc_ne_xlpe : ("PVC" : String) ≠ "XLPE" := by decide

/-- C3 counterexample: the claim says attempt 3 uses tolerance
3 × 10 mm² = 30 mm², but the code's `retry_count >= 2` branch caps the
tolerance at 20 mm². -/
theorem C3_attempt3_tolerance_counterexample :
    toleranceForAttempt 3 = 20 ∧
    toleranceForAttempt 3 ≠ 3 * SIZE_TOLERANCE_RELAXATION := by
  norm_num [toleranceForAttempt, SIZE_TOLERANCE_RELAXATION]

/-- C3 (amended): the size tolerance on attempt n equals
min(n, 2) × 10 mm² (attempts 0, 1, 2, 3 use 0, 10, 20, 20), and each
attempt re-runs matching for every line: each of the lines contributes
exactly one outcome (a selection or a non-fatal error). -/
theorem C3_tolerance_schedule (n : ℕ)
    (lines : List (ProductSpecification × List SkuData)) :
    toleranceForAttempt n = ((min n 2 : ℕ) : ℚ) * SIZE_TOLERANCE_RELAXATION ∧
    (technicalAttempt (toleranceForAttempt n) n lines).1.length +
      (technicalAttempt (toleranceForAttempt n) n lines).2.length =
      lines.length := by
  refine ⟨?_, technicalAttempt_length _ _ lines⟩
  rcases n with _ | n1
  · norm_num [toleranceForAttempt]
  · rcases n1 with _ | m
    · norm_num [toleranceForAttempt, SIZE_TOLERANCE_RELAXATION]
    · have hmin : min (m + 1 + 1) 2 = 2 := by omega
      norm_num [toleranceForAttempt, hmin, SIZE_TOLERANCE_RELAXATION]

def c5spec : ProductSpecification :=
  { line := 1, quantity := 1000, req_material := "Copper", req_insulation := "XLPE",
    req_cores := 4, req_size_mm2 := 95, req_voltage_kv := 11 / 10 }

def c5skuZero : SkuData :=
  { sku := "OEM-PVC-1C-10", Material := "Aluminium", Insulation := "PVC",
    Cores := 1, Size_mm2 := 10, Base_Price := 100, Metal_Weight_kg_km := 30 }

/-- C5 counterexample: a non-empty candidate list on which the matcher
selects nothing, because every candidate scores SMM 0 and the running
best starts at 0 with a strict comparison. -/
theorem C5_no_selection_counterexample :
    ([c5skuZero] : List SkuData) ≠ [] ∧
    selectBestMatch c5spec 0 [c5skuZero] = none := by
  constructor
  · simp
  · have hsz : sizeMatch (10 : ℚ) 95 0 = false := by norm_num [sizeMatch]
    have h0 : calculate_smm_weighted c5spec c5skuZero 0 = 0 := by
      simp [calculate_smm_weighted, c5spec, c5skuZero, hsz]
      norm_num [round2, weightCores]
    simp [selectBestMatch, selectLoop, h0]

/-- C5 (amended): whenever some candidate scores a positive SMM, the
matcher selects a candidate with the maximal SMM, and every candidate
placed earlier in the retrieval list scores strictly less — ties at the
top are broken by the earliest position.  (When every candidate scores 0,
no candidate is selected at all; see the counterexample.) -/
theorem C5_first_max_selected (spec : ProductSpecification) (tol : ℚ)
    (cands : List SkuData)
    (h : ∃ c ∈ cands, 0 < calculate_smm_weighted spec c tol) :
    ∃ pre b post, cands = pre ++ b :: post ∧
      selectBestMatch spec tol cands =
        some (b, calculate_smm_weighted spec b tol) ∧
      (∀ d ∈ cands,
        calculate_smm_weighted spec d tol ≤ calculate_smm_weighted spec b tol) ∧
      (∀ d ∈ pre,
        calculate_smm_weighted spec d tol < calculate_smm_weighted spec b tol) := by
  obtain ⟨pre, b, post, heq, hsel, _, hpre, hpost⟩ :=
    selectLoop_first_max spec tol cands none 0 h
  refine ⟨pre, b, post, heq, hsel, ?_, hpre⟩
  intro d hd
  rw [heq] at hd
  rcases List.mem_append.mp hd with hd | hd
  · exact le_of_lt (hpre d hd)
  · rcases List.mem_cons.mp hd with hd | hd
    · subst hd; exact le_refl _
    · exact hpost d hd

def c5skuTieA : SkuData :=
  { sku := "OEM-XLPE-4C-95-A", Material := "Copper", Insulation := "XLPE",
    Cores := 4, Size_mm2 := 95, Base_Price := 1000, Metal_Weight_kg_km := 380 }

def c5skuTieB : SkuData :=
  { sku := "OEM-XLPE-4C-95-B", Material := "Copper", Insulation := "XLPE",
    Cores := 4, Size_mm2 := 120, Base_Price := 1200, Metal_Weight_kg_km := 420 }

/-- C5 witness: two candidates that tie at SMM 100; the hypothesis of the
amended claim is discharged at this concrete retrieval list. -/
theorem C5_first_max_selected_witness :
    (∃ c ∈ [c5skuTieA, c5skuTieB], 0 < calculate_smm_weighted c5spec c 0) ∧
    (∃ pre b post, ([c5skuTieA, c5skuTieB] : List SkuData) = pre ++ b :: post ∧
      selectBestMatch c5spec 0 [c5skuTieA, c5skuTieB] =
        some (b, calculate_smm_weighted c5spec b 0) ∧
      (∀ d ∈ [c5skuTieA, c5skuTieB],
        calculate_smm_weighted c5spec d 0 ≤ calculate_smm_weighted c5spec b 0) ∧
      (∀ d ∈ pre,
        calculate_smm_weighted c5spec d 0 < calculate_smm_weighted c5spec b 0)) := by
  have hyp : ∃ c ∈ [c5skuTieA, c5skuTieB], 0 < calculate_smm_weighted c5spec c 0 := by
    refine ⟨c5skuTieA, by simp, ?_⟩
    norm_num [calculate_smm_weighted, c5spec, c5skuTieA, sizeMatch, round2,
      weightMaterial, weightCores, weightSize, weightInsulation]
  exact ⟨hyp, C5_first_max_selected c5spec 0 [c5skuTieA, c5skuTieB] hyp⟩

/-- C10: when every retrieved candidate scores SMM 0, no `SelectedSKU` is
produced for the line even though candidates exist — the strict
`score > best` comparison against the initial best of 0 never fires — and
the line becomes the non-fatal "No matching SKU found" error, excluded
from the attempt's selection set. -/
theorem C10_all_zero_scores_error (tol : ℚ) (rc : ℕ)
    (spec : ProductSpecification) (cands : List SkuData) (hne : cands ≠ [])
    (hz : ∀ c ∈ cands, calculate_smm_weighted spec c tol = 0) :
    selectBestMatch spec tol cands = none ∧
    processLine tol rc spec cands =
      Except.error ("No matching SKU found for line " ++ toString spec.line) := by
  have hnone : selectBestMatch spec tol cands = none :=
    selectLoop_of_le spec tol cands none 0 (fun c hc => le_of_eq (hz c hc))
  refine ⟨hnone, ?_⟩
  simp [processLine, hnone, List.isEmpty_iff, hne]

def c10spec : ProductSpecification :=
  { line := 7, quantity := 500, req_material := "Copper", req_insulation := "XLPE",
    req_cores := 3, req_size_mm2 := 50, req_voltage_kv := 1 }

def c10sku : SkuData :=
  { sku := "OEM-PVC-2C-25", Material := "Aluminium", Insulation := "PVC",
    Cores := 2, Size_mm2 := 25, Base_Price := 200, Metal_Weight_kg_km := 60 }

/-- C10 witness: a concrete candidate list scoring all zeros. -/
theorem C10_all_zero_scores_error_witness :
    selectBestMatch c10spec 0 [c10sku] = none ∧
    processLine 0 0 c10spec [c10sku] =
      Except.error ("No matching SKU found for line " ++ toString c10spec.line) := by
  refine C10_all_zero_scores_error 0 0 c10spec [c10sku] (by simp) ?_
  intro c hc
  rcases List.mem_singleton.mp hc with rfl
  have hsz : sizeMatch (25 : ℚ) 50 0 = false := by norm_num [sizeMatch]
  simp [calculate_smm_weighted, c10spec, c10sku, hsz]
  norm_num [round2, weightCores]

/-! ### ComplianceGate / RetryController (backend/workflows/rfp_graph.py,
`route_technical_compliance`) -/

/-- Outcome of one technical attempt as the router observes it: no
selected SKUs, all selections compliant (SMM ≥ 80), or some selection
non-compliant. -/
inductive AttemptOutcome
  | noSkus
  | compliant
  | nonCompliant
deriving DecidableEq

/-- Where `route_technical_compliance` sends control. -/
inductive TechRoute
  | toPricing
  | retryMatching (newRetryCount : ℕ)
  | toEnd
deriving DecidableEq

/-- `route_technical_compliance` of `backend/workflows/rfp_graph.py`:
empty selections route to the end node, compliant selections proceed to
pricing, and a non-compliant attempt retries while `retry_count < 3`
(incrementing the counter) and otherwise routes to the end node. -/
def route_technical_compliance (outcome : AttemptOutcome) (retryCount : ℕ) :
    TechRoute :=
  match outcome with
  | .noSkus => .toEnd
  | .compliant => .toPricing
  | .nonCompliant =>
    if retryCount < TECHNICAL_MAX_RETRIES then .retryMatching (retryCount + 1)
    else .toEnd

/-- Terminal stage reached by the matching loop. -/
inductive TechTerminal
  | pricingStage
  | endStage
deriving DecidableEq

/-- The technical matching loop: run the attempt at the current retry
count, consult the router, and repeat on a retry.  `oracle n` abstracts
the outcome of the attempt executed at retry count `n` (any catalog
contents, any selection outcomes).  Returns the terminal stage and the
number of matching attempts executed. -/
def techLoopFrom (oracle : ℕ → AttemptOutcome) (retryCount : ℕ) :
    TechTerminal × ℕ :=
  match oracle retryCount with
  | .noSkus => (.endStage, 1)
  | .compliant => (.pricingStage, 1)
  | .nonCompliant =>
    if h : retryCount < TECHNICAL_MAX_RETRIES then
      ((techLoopFrom oracle (retryCount + 1)).1,
        (techLoopFrom oracle (retryCount + 1)).2 + 1)
    else (.endStage, 1)
termination_by TECHNICAL_MAX_RETRIES + 1 - retryCount
decreasing_by omega

/-- One step of the loop follows the embedded router. -/
theorem techLoopFrom_follows_router (oracle : ℕ → AttemptOutcome)
    (retryCount : ℕ) :
    techLoopFrom oracle retryCount =
      match route_technical_compliance (oracle retryCount) retryCount with
      | .toPricing => (.pricingStage, 1)
      | .toEnd => (.endStage, 1)
      | .retryMatching rc2 =>
        ((techLoopFrom oracle rc2).1, (techLoopFrom oracle rc2).2 + 1) := by
  rw [techLoopFrom]
  cases ho : oracle retryCount
  · rfl
  · rfl
  · by_cases h2 : retryCount < TECHNICAL_MAX_RETRIES <;>
      simp [route_technical_compliance, h2]

theorem techLoopFrom_exhausted (oracle : ℕ → AttemptOutcome) (retryCount : ℕ)
    (h : TECHNICAL_MAX_RETRIES ≤ retryCount) :
    (techLoopFrom oracle retryCount).2 = 1 := by
  rw [techLoopFrom]
  cases oracle retryCount <;> simp [Nat.not_lt.mpr h]

theorem techLoopFrom_le (oracle : ℕ → AttemptOutcome) :
    ∀ (k retryCount : ℕ), TECHNICAL_MAX_RETRIES - retryCount ≤ k →
      (techLoopFrom oracle retryCount).2 ≤ k + 1 := by
  intro k
  induction k with
  | zero =>
    intro rc h
    exact le_of_eq (techLoopFrom_exhausted oracle rc (by omega))
  | succ k ih =>
    intro rc h
    rw [techLoopFrom]
    cases ho : oracle rc
    · simp
    · simp
    · by_cases h2 : rc < TECHNICAL_MAX_RETRIES
      · simp only [dif_pos h2]
        have := ih (rc + 1) (by omega)
        omega
      · simp only [dif_neg h2]
        omega

/-- C7: whatever the catalog contents and per-attempt outcomes, the
technical retry loop executes at most `max_retries + 1 = 4` matching
attempts before reaching a terminal stage. -/
theorem C7_retry_loop_bounded (oracle : ℕ → AttemptOutcome) :
    (techLoopFrom oracle 0).2 ≤ TECHNICAL_MAX_RETRIES + 1 :=
  techLoopFrom_le oracle TECHNICAL_MAX_RETRIES 0 (by omega)

/-! ### RiskScorer / SalesQualifier (backend/tools/risk_assessment_tool.py,
backend/agents/sales_agent.py) -/

/-- `assess_rfp_risk`: additive commercial risk score, capped at 10. -/
def assess_rfp_risk_score (daysRemaining : ℤ) (bidBondRequired ldClause : Bool)
    (performanceBondPercent : ℚ) : ℕ :=
  min ((if daysRemaining < 30 then 4 else if daysRemaining < 60 then 2 else 0) +
    (if bidBondRequired then 2 else 0) + (if ldClause then 3 else 0) +
    (if 10 ≤ performanceBondPercent then 1 else 0)) 10

/-- The qualification predicate computed by `sales_agent_node`
(`is_qualified`): inside the 90-day window and risk score at most 7. -/
def is_qualified (daysRemaining : ℤ) (riskScore : ℕ) : Bool :=
  decide (0 ≤ daysRemaining ∧ daysRemaining ≤ RFP_QUALIFICATION_WINDOW_DAYS) &&
    decide (riskScore ≤ 7)

/-- What `sales_agent_node` leaves in the state for a structurally valid
RFP with a parseable due date. -/
structure SalesOutcome where
  status : String
  riskScore : ℕ
  qualified : Bool
deriving DecidableEq

/-- `sales_agent_node` of `backend/agents/sales_agent.py`: the node
computes the risk score and the qualification verdict, but its only
status on this path is `sales_screening_complete`. -/
def sales_agent_node (daysRemaining : ℤ) (bidBondRequired ldClause : Bool)
    (performanceBondPercent : ℚ) : SalesOutcome :=
  { status := "sales_screening_complete",
    riskScore := assess_rfp_risk_score daysRemaining bidBondRequired ldClause
      performanceBondPercent,
    qualified := is_qualified daysRemaining
      (assess_rfp_risk_score daysRemaining bidBondRequired ldClause
        performanceBondPercent) }

/-- The workflow nodes registered in `create_rfp_processing_graph`. -/
inductive WorkflowNode
  | salesAgent
  | extractSpecifications
  | technicalAgent
  | checkTechnicalCompliance
  | pricingAgent
  | checkPricingConstraints
  | businessAdvisoryAgent
  | consolidateBid
  | makeFinalDecision
  | endStage
deriving DecidableEq

/-- The graph edge after `sales_agent` in `create_rfp_processing_graph`
is `workflow.add_edge("sales_agent", "extract_specifications")`: control
passes to specification extraction unconditionally, whatever the
screening outcome was. -/
def routeAfterSales (_outcome : SalesOutcome) : WorkflowNode :=
  WorkflowNode.extractSpecifications

/-- C2 (code bug): an RFP due in 14 days with a bid bond and a
liquidated-damages clause scores risk 9 > 7 and is not qualified, yet
`sales_agent_node` completes with `sales_screening_complete` and the
workflow proceeds unconditionally to specification extraction — there is
no declined-at-screening termination in the code. -/
theorem C2_disqualified_rfp_still_proceeds :
    (sales_agent_node 14 true true 0).riskScore = 9 ∧
    (sales_agent_node 14 true true 0).qualified = false ∧
    (sales_agent_node 14 true true 0).status = "sales_screening_complete" ∧
    routeAfterSales (sales_agent_node 14 true true 0) =
      WorkflowNode.extractSpecifications := by
  refine ⟨?_, ?_, rfl, rfl⟩ <;>
    norm_num [sales_agent_node, assess_rfp_risk_score, is_qualified,
      RFP_QUALIFICATION_WINDOW_DAYS]

/-! ### DecisionEngine (backend/agents/orchestrator_agent.py,
`make_final_decision_node`) -/

inductive Decision
  | approve
  | escalate
  | decline
deriving DecidableEq

/-- `make_final_decision_node`: the branch cascade of the source, in
source order (`errors and len(errors) > 3`, missing consolidated bid,
compliance flags, risk score of the qualified RFP when present). -/
def make_final_decision (errorCount : ℕ)
    (hasConsolidatedBid technicalOk pricingOk : Bool)
    (riskScore : Option ℤ) : Decision :=
  if errorCount ≠ 0 ∧ 3 < errorCount then .decline
  else if hasConsolidatedBid = false then .decline
  else if (technicalOk && pricingOk) = false then .escalate
  else if riskScore.elim false (fun r => decide (5 < r)) = true then .escalate
  else .approve

/-- The decision table as the claim words it: decline when no bid or more
than 3 errors; otherwise escalate on a failed compliance flag or risk
above 5; otherwise approve. -/
def decisionSpecTable (errorCount : ℕ)
    (hasConsolidatedBid technicalOk pricingOk : Bool) (riskScore : ℤ) : Decision :=
  if hasConsolidatedBid = false ∨ 3 < errorCount then .decline
  else if technicalOk = false ∨ pricingOk = false ∨ 5 < riskScore then .escalate
  else .approve

/-- C9: with a risk score present, the final decision function agrees with
the claim's decision table on every input; in particular a consolidated
bid with 2 ≤ 3 errors, both compliance flags true and risk score 6 is
escalated. -/
theorem C9_decision_table (errorCount : ℕ)
    (hasConsolidatedBid technicalOk pricingOk : Bool) (riskScore : ℤ) :
    make_final_decision errorCount hasConsolidatedBid technicalOk pricingOk
      (some riskScore) =
      decisionSpecTable errorCount hasConsolidatedBid technicalOk pricingOk
        riskScore ∧
    make_final_decision 2 true true true (some 6) = Decision.escalate := by
  have herr : (errorCount ≠ 0 ∧ 3 < errorCount) ↔ 3 < errorCount := by omega
  constructor
  · cases hasConsolidatedBid <;> cases technicalOk <;> cases pricingOk <;>
      by_cases h5 : 5 < riskScore <;> by_cases he : 3 < errorCount <;>
        simp [make_final_decision, decisionSpecTable, herr, h5, he] <;> omega
  · rfl

/-! ### PricingEngine (backend/config.py, backend/tools/pricing_lookup_tool.py,
backend/agents/pricing_agent.py) -/

/-- `get_oem_product_by_sku` of `backend/data/models.py`: linear scan of
the catalog; an absent SKU raises `ValueError` (modelled as `none`). -/
def get_oem_product_by_sku (catalog : List SkuData) (skuId : String) :
    Option SkuData :=
  catalog.find? (fun p => p.sku = skuId)

/-- `get_lme_rate` of `backend/config.py`: rate of a material in the LME
snapshot; an unknown material raises `ValueError` (modelled as `none`). -/
def get_lme_rate (rates : List (String × ℚ)) (material : String) : Option ℚ :=
  (rates.find? (fun p => p.1 = material)).map (fun p => p.2)

/-- `get_test_cost` of `backend/config.py`: cost of a test or
certification; an unknown test raises `ValueError` (modelled as `none`). -/
def get_test_cost (testPricing : List (String × ℚ)) (testName : String) :
    Option ℚ :=
  (testPricing.find? (fun p => p.1 = testName)).map (fun p => p.2)

/-- `calculate_sku_unit_cost` of `backend/tools/pricing_lookup_tool.py`:
LME-indexed unit price
`(base_price + (weight/1000) × (rate/1000) × fx) × margin`, rounded to
two decimals; a SKU or rate lookup failure becomes the error dictionary. -/
def calculate_sku_unit_cost (catalog : List SkuData)
    (rates : List (String × ℚ)) (skuId material : String)
    (metalWeightKgKm : ℚ) : Except String ℚ :=
  match get_oem_product_by_sku catalog skuId with
  | none => Except.error ("SKU not found: " ++ skuId)
  | some product =>
    match get_lme_rate rates material with
    | none => Except.error ("Unknown material: " ++ material)
    | some lmeRateUsdMt =>
      Except.ok (round2 ((product.Base_Price +
        (metalWeightKgKm / 1000) * (lmeRateUsdMt / 1000) * USD_TO_INR_RATE) *
        TARGET_MARGIN))

/-- The cost dictionary returned by `calculate_line_cost`. -/
structure LineCost where
  unit_price_inr_m : ℚ
  material_cost_total_inr : ℚ
  services_cost_inr : ℚ
  risk_premium_inr : ℚ
  grand_total_inr : ℚ
deriving DecidableEq

def sumCosts : List ℚ → ℚ
  | [] => 0
  | c :: cs => c + sumCosts cs

/-- `calculate_line_cost` of `backend/tools/pricing_lookup_tool.py`:
material cost = rounded unit price × quantity, services = Σ test costs
(an unknown test raises inside the `try` and fails the line), risk
premium = `bid_bond_value * 0.02` when the premium applies and the bond
value is positive, grand total = the sum of the three. -/
def calculate_line_cost (catalog : List SkuData)
    (rates testPricing : List (String × ℚ)) (skuId : String) (quantity : ℕ)
    (material : String) (metalWeightKgKm : ℚ) (testRequirements : List String)
    (includeRiskPremium : Bool) (bidBondValue : ℚ) : Except String LineCost :=
  match calculate_sku_unit_cost catalog rates skuId material metalWeightKgKm with
  | Except.error e => Except.error e
  | Except.ok unitPrice =>
    match testRequirements.mapM (get_test_cost testPricing) with
    | none => Except.error "Line cost calculation failed: unknown test"
    | some costs =>
      let materialCostTotal := unitPrice * quantity
      let servicesCost := sumCosts costs
      let riskPremium :=
        if includeRiskPremium = true ∧ 0 < bidBondValue then
          bidBondValue * (2 / 100)
        else 0
      Except.ok
        { unit_price_inr_m := round2 unitPrice,
          material_cost_total_inr := round2 materialCostTotal,
          services_cost_inr := round2 servicesCost,
          risk_premium_inr := round2 riskPremium,
          grand_total_inr := round2 (materialCostTotal + servicesCost + riskPremium) }

/-- Per-line pricing record (`PricingResult` in `backend/state.py`). -/
structure PricingResult where
  line : ℕ
  sku_id : String
  quantity : ℕ
  material_cost : ℚ
  services_cost : ℚ
  risk_premium : ℚ
  grand_total : ℚ
deriving DecidableEq

/-- One iteration of the `for selected_sku in selected_skus` loop of
`pricing_agent_node`: SKU lookup, matching spec lookup by line number,
then `calculate_line_cost`; any failure is the per-line error message. -/
def priceLine (catalog : List SkuData) (rates testPricing : List (String × ℚ))
    (specs : List ProductSpecification) (tests : List String)
    (includeRiskPremium : Bool) (bidBondValue : ℚ) (sel : SelectedSKU) :
    Except String PricingResult :=
  match get_oem_product_by_sku catalog sel.sku_id with
  | none => Except.error ("Error pricing line " ++ toString sel.line)
  | some skuData =>
    match specs.find? (fun sp => sp.line = sel.line) with
    | none => Except.error ("No matching spec for line " ++ toString sel.line)
    | some sp =>
      match calculate_line_cost catalog rates testPricing sel.sku_id sp.quantity
          skuData.Material skuData.Metal_Weight_kg_km tests includeRiskPremium
          bidBondValue with
      | Except.error e =>
        Except.error ("Line " ++ toString sel.line ++ " pricing error: " ++ e)
      | Except.ok c =>
        Except.ok
          { line := sel.line, sku_id := sel.sku_id, quantity := sp.quantity,
            material_cost := c.material_cost_total_inr,
            services_cost := c.services_cost_inr,
            risk_premium := c.risk_premium_inr,
            grand_total := c.grand_total_inr }

/-- The line loop of `pricing_agent_node`: a failing line appends its
error to the non-fatal error list and is skipped (`continue`); successes
accumulate in order. -/
def pricing_agent_lines (catalog : List SkuData)
    (rates testPricing : List (String × ℚ)) (specs : List ProductSpecification)
    (tests : List String) (includeRiskPremium : Bool) (bidBondValue : ℚ) :
    List SelectedSKU → List PricingResult × List String
  | [] => ([], [])
  | sel :: sels =>
    let rest := pricing_agent_lines catalog rates testPricing specs tests
      includeRiskPremium bidBondValue sels
    match priceLine catalog rates testPricing specs tests includeRiskPremium
        bidBondValue sel with
    | Except.ok r => (r :: rest.1, rest.2)
    | Except.error e => (rest.1, e :: rest.2)

/-- Stage status set at the end of `pricing_agent_node`:
`failed_pricing` exactly when no line priced successfully, otherwise
`pricing_complete`. -/
def pricing_status (results : List PricingResult) : String :=
  if results.isEmpty then "failed_pricing" else "pricing_complete"

/-- `include_risk_premium` as computed in `pricing_agent_node`:
`Bid_Bond_Required or Liquidated_Damages_Clause`. -/
def include_risk_premium (bidBondRequired ldClause : Bool) : Bool :=
  bidBondRequired || ldClause

/-- Total bid value: `pricing_agent_node` and `consolidate_bid_node` sum
`grand_total` over the pricing lines. -/
def total_bid_value (results : List PricingResult) : ℚ :=
  sumCosts (results.map (fun r => r.grand_total))

def exceptToOption : Except String PricingResult → Option PricingResult
  | Except.ok r => some r
  | Except.error _ => none

def c1sku : SkuData :=
  { sku := "OEM-CU-1", Material := "Copper", Insulation := "XLPE",
    Cores := 4, Size_mm2 := 95, Base_Price := 1000, Metal_Weight_kg_km := 380 }

def c1catalog : List SkuData := [c1sku]

def c1specs : List ProductSpecification :=
  [{ line := 1, quantity := 1, req_material := "Copper", req_insulation := "XLPE",
     req_cores := 4, req_size_mm2 := 95, req_voltage_kv := 11 / 10 },
   { line := 2, quantity := 1, req_material := "Copper", req_insulation := "XLPE",
     req_cores := 4, req_size_mm2 := 95, req_voltage_kv := 11 / 10 }]

def c1sels : List SelectedSKU :=
  [{ line := 1, sku_id := "OEM-CU-1", smm_score := 100, retry_count := 0 },
   { line := 2, sku_id := "OEM-CU-1", smm_score := 100, retry_count := 0 }]

/-- C1 (code bug): for a two-line bid with the bid bond required and
`bid_bond_value = 500000`, `pricing_agent_node` passes
`include_risk_premium` into `calculate_line_cost` for every line, so the
full premium 500000 × 0.02 = 10000 lands in each line's grand total and
the bid total carries the premium twice — not once at the bid level. -/
theorem C1_risk_premium_applied_per_line :
    ((pricing_agent_lines c1catalog LME_RATES [] c1specs []
        (include_risk_premium true false) 500000 c1sels).1.map
      (fun r => r.risk_premium)) = [10000, 10000] ∧
    total_bid_value (pricing_agent_lines c1catalog LME_RATES [] c1specs []
        (include_risk_premium true false) 500000 c1sels).1 =
      sumCosts ((pricing_agent_lines c1catalog LME_RATES [] c1specs []
          (include_risk_premium true false) 500000 c1sels).1.map
        (fun r => r.material_cost + r.services_cost)) +
        2 * ((500000 : ℚ) * (2 / 100)) ∧
    2 * ((500000 : ℚ) * (2 / 100)) ≠ (500000 : ℚ) * (2 / 100) := by
  have hpl : pricing_agent_lines c1catalog LME_RATES [] c1specs []
      (include_risk_premium true false) 500000 c1sels =
      ([{ line := 1, sku_id := "OEM-CU-1", quantity := 1,
          material_cost := 148369 / 100, services_cost := 0,
          risk_premium := 10000, grand_total := 1148369 / 100 },
        { line := 2, sku_id := "OEM-CU-1", quantity := 1,
          material_cost := 148369 / 100, services_cost := 0,
          risk_premium := 10000, grand_total := 1148369 / 100 }], []) := by
    simp [pricing_agent_lines, priceLine, calculate_line_cost,
      calculate_sku_unit_cost, get_oem_product_by_sku, get_lme_rate,
      get_test_cost, c1catalog, c1sku, c1specs, c1sels, include_risk_premium,
      List.find?, List.mapM, List.mapM.loop, sumCosts]
    norm_num [round2, TARGET_MARGIN, USD_TO_INR_RATE, LME_RATES]
  rw [hpl]
  refine ⟨by norm_num, ?_, by norm_num⟩
  simp [total_bid_value, sumCosts]
  norm_num

def c8skuSteel : SkuData :=
  { sku := "OEM-ST-1", Material := "Steel", Insulation := "XLPE",
    Cores := 4, Size_mm2 := 95, Base_Price := 900, Metal_Weight_kg_km := 400 }

def c8skuCu : SkuData :=
  { sku := "OEM-CU-2", Material := "Copper", Insulation := "XLPE",
    Cores := 4, Size_mm2 := 95, Base_Price := 1000, Metal_Weight_kg_km := 380 }

def c8catalog : List SkuData := [c8skuSteel, c8skuCu]

def c8specs : List ProductSpecification :=
  [{ line := 1, quantity := 1, req_material := "Steel", req_insulation := "XLPE",
     req_cores := 4, req_size_mm2 := 95, req_voltage_kv := 11 / 10 },
   { line := 2, quantity := 1, req_material := "Copper", req_insulation := "XLPE",
     req_cores := 4, req_size_mm2 := 95, req_voltage_kv := 11 / 10 }]

def c8sels : List SelectedSKU :=
  [{ line := 1, sku_id := "OEM-ST-1", smm_score := 100, retry_count := 0 },
   { line := 2, sku_id := "OEM-CU-2", smm_score := 100, retry_count := 0 }]

/-- C8 counterexample: line 1 references a material with no rate in the
snapshot, a pricing error; the stage nevertheless completes with
`pricing_complete`, carrying line 2's pricing into the results — a
strict subset of the bid's pricing lines is carried forward. -/
theorem C8_surviving_lines_counterexample :
    ((pricing_agent_lines c8catalog LME_RATES [] c8specs [] false 0
        c8sels).1.map (fun r => r.line)) = [2] ∧
    (pricing_agent_lines c8catalog LME_RATES [] c8specs [] false 0 c8sels).2 =
      ["Line 1 pricing error: Unknown material: Steel"] ∧
    pricing_status (pricing_agent_lines c8catalog LME_RATES [] c8specs [] false 0
      c8sels).1 = "pricing_complete" := by
  have hpl : pricing_agent_lines c8catalog LME_RATES [] c8specs [] false 0
      c8sels =
      ([{ line := 2, sku_id := "OEM-CU-2", quantity := 1,
          material_cost := 148369 / 100, services_cost := 0,
          risk_premium := 0, grand_total := 148369 / 100 }],
       ["Line 1 pricing error: Unknown material: Steel"]) := by
    simp [pricing_agent_lines, priceLine, calculate_line_cost,
      calculate_sku_unit_cost, get_oem_product_by_sku, get_lme_rate,
      get_test_cost, c8catalog, c8skuSteel, c8skuCu, c8specs, c8sels,
      List.find?, List.mapM, List.mapM.loop, sumCosts, LME_RATES]
    norm_num [round2, TARGET_MARGIN, USD_TO_INR_RATE]
    decide
  rw [hpl]
  refine ⟨by norm_num, rfl, ?_⟩
  simp [pricing_status]

/-- C8 (amended): a pricing error fails only its own line — the pricing
results are exactly the successfully priced lines, in order, and the
stage as a whole fails (`failed_pricing`) exactly when no line priced
successfully. -/
theorem C8_pricing_error_skips_line (catalog : List SkuData)
    (rates testPricing : List (String × ℚ)) (specs : List ProductSpecification)
    (tests : List String) (irp : Bool) (bbv : ℚ) (sels : List SelectedSKU) :
    (pricing_agent_lines catalog rates testPricing specs tests irp bbv sels).1 =
      sels.filterMap (fun sel => exceptToOption
        (priceLine catalog rates testPricing specs tests irp bbv sel)) ∧
    (pricing_status
        (pricing_agent_lines catalog rates testPricing specs tests irp bbv
          sels).1 = "failed_pricing" ↔
      (pricing_agent_lines catalog rates testPricing specs tests irp bbv
        sels).1 = []) := by
  constructor
  · induction sels with
    | nil => rfl
    | cons sel sels ih =>
      simp only [pricing_agent_lines, List.filterMap_cons]
      cases hp : priceLine catalog rates testPricing specs tests irp bbv sel <;>
        simp [exceptToOption, hp, ih]
  · by_cases hm : (pricing_agent_lines catalog rates testPricing specs tests irp
        bbv sels).1 = []
    · simp [pricing_status, hm]
    · have hne : ("pricing_complete" : String) ≠ "failed_pricing" := by decide
      simp [pricing_status, hm, List.isEmpty_iff, hne]

/-- C8 witness: the amended statement applied at the concrete two-line
input of the counterexample. -/
theorem C8_pricing_error_skips_line_witness :
    (pricing_agent_lines c8catalog LME_RATES [] c8specs [] false 0 c8sels).1 =
      c8sels.filterMap (fun sel => exceptToOption
        (priceLine c8catalog LME_RATES [] c8specs [] false 0 sel)) :=
  (C8_pricing_error_skips_line c8catalog LME_RATES [] c8specs [] false 0
    c8sels).1

end RFP
